import Mathlib

/-!
Verification of the Play Resolution Engine (gamification-engine).

Shallow embedding of `src/routes/proxy.ts` (the `init`, `play` and `verify`
handlers) and `src/utils/index.ts` (`weightedRandom`, `generateDiscountCode`).
The Prisma store is modelled as explicit lists of rows; timestamps are
integers in milliseconds; probability weights are rationals (the JS doubles,
modelled exactly); `Math.random()` is an explicit parameter `u` with
`0 ≤ u < 1`.  External effects (the Shopify discount API) are modelled by an
explicit `shopifyId : Option String` result parameter, matching the code's
tolerant handling of the integration result.
-/

namespace Gamify

/-- Prize kind of a game segment (`PERCENTAGE | FIXED_AMOUNT | FREE_SHIPPING | NO_PRIZE`). -/
inductive PrizeType where
  | PERCENTAGE
  | FIXED_AMOUNT
  | FREE_SHIPPING
  | NO_PRIZE
deriving DecidableEq, Repr

/-- Result of a play (`WIN | LOSE`). -/
inductive PlayResult where
  | WIN
  | LOSE
deriving DecidableEq, Repr

/-- Discount lifecycle status (`CREATED → USED → EXPIRED`). -/
inductive DiscountStatus where
  | CREATED
  | USED
  | EXPIRED
deriving DecidableEq, Repr

/-- Game type (`SPIN_WHEEL | SCRATCH_CARD | POPUP`). -/
inductive GameType where
  | SPIN_WHEEL
  | SCRATCH_CARD
  | POPUP
deriving DecidableEq, Repr

/-- Visitor-type enum of a targeting rule. -/
inductive VisitorType where
  | ALL
  | NEW
  | RETURNING
  | CUSTOMERS
  | NON_CUSTOMERS
  | LOGGED_IN
  | NOT_LOGGED_IN
deriving DecidableEq, Repr

/-- One weighted prize slot of a Game (`GameSegment` row).  `probability` is
the raw weight (need not be normalized), `order` the display order used by
the `orderBy: order asc` include. -/
structure GameSegment where
  id : Nat
  label : String
  type : PrizeType
  value : Nat
  probability : ℚ
  color : String
  order : Int
deriving DecidableEq, Repr

/-- A configured campaign (`Game` row), with its segment list as stored. -/
structure Game where
  id : Nat
  shopId : Nat
  type : GameType
  name : String
  isActive : Bool
  startDate : Option Int
  endDate : Option Int
  segments : List GameSegment
deriving DecidableEq, Repr

/-- Eligibility/reward rule (`DiscountRule` row); `gameId = none` is a
shop-wide rule.  Fields only forwarded verbatim to the external Shopify call
(usage limits, combination flags, minimum order amount) are omitted: they do
not feed any modelled logic. -/
structure DiscountRule where
  id : Nat
  shopId : Nat
  gameId : Option Nat
  isActive : Bool
  createdAt : Int
  maxPlaysPerVisitor : Nat
  cooldownHours : Int
  requireEmail : Bool
  validityDays : Int
deriving DecidableEq, Repr

/-- Tenant root (`Shop` row). -/
structure Shop where
  id : Nat
  domain : String
  isActive : Bool
  accessToken : String
deriving DecidableEq, Repr

/-- Browser/device identity (`Visitor` row). -/
structure Visitor where
  id : Nat
  shopId : Nat
  fingerprint : String
  email : Option String
  customerId : Option String
  device : Option String
  totalPlays : Nat
  totalWins : Nat
deriving DecidableEq, Repr

/-- Browsing episode (`Session` row), looked up solely by `token`. -/
structure Session where
  id : Nat
  visitorId : Nat
  token : String
  isActive : Bool
  lastActivityAt : Int
deriving DecidableEq, Repr

/-- Immutable record of one resolved play (`Play` row). -/
structure PrizeSnapshot where
  type : PrizeType
  value : Nat
  label : String
deriving DecidableEq, Repr

structure Play where
  id : Nat
  gameId : Nat
  visitorId : Nat
  result : PlayResult
  segmentId : Nat
  prize : Option PrizeSnapshot
  discountId : Option Nat
  playedAt : Int
deriving DecidableEq, Repr

/-- A granted reward (`Discount` row). -/
structure Discount where
  id : Nat
  shopId : Nat
  visitorId : Nat
  ruleId : Nat
  code : String
  shopifyId : Option String
  type : PrizeType
  value : Nat
  status : DiscountStatus
  expiresAt : Int
deriving DecidableEq, Repr

/-- Daily rollup (`Analytics` row), keyed by (shopId, gameId, date). -/
structure Analytics where
  shopId : Nat
  gameId : Option Nat
  date : Int
  plays : Nat
  wins : Nat
deriving DecidableEq, Repr

/-- Priority-ordered targeting predicate (`TargetingRule` row). -/
structure TargetingRule where
  id : Nat
  shopId : Nat
  isActive : Bool
  priority : Int
  gameId : Option Nat
  pageType : List String
  devices : List String
  visitorType : VisitorType
  trafficSource : List String
  utmSource : List String
  scheduleEnabled : Bool
  scheduleDays : List Nat
  scheduleStartHour : Option Int
  scheduleEndHour : Option Int
deriving DecidableEq, Repr

/-- The persisted store: all tables, in insertion order. -/
structure Store where
  shops : List Shop
  visitors : List Visitor
  sessions : List Session
  games : List Game
  rules : List DiscountRule
  targeting : List TargetingRule
  plays : List Play
  discounts : List Discount
  analytics : List Analytics
deriving DecidableEq, Repr

/-! ### Utilities (`src/utils/index.ts`) -/

/-- ASCII uppercase of one character (JS `String.prototype.toUpperCase` on
the ASCII range, which is all the code generator ever produces). -/
def charUp (c : Char) : Char :=
  if 97 ≤ c.toNat ∧ c.toNat ≤ 122 then Char.ofNat (c.toNat - 32) else c

/-- JS `s.toUpperCase()` on ASCII strings. -/
def toUpperCase (s : String) : String :=
  String.mk (s.data.map charUp)

/-- `generateDiscountCode`: `PREFIX-RANDOM`, the random nanoid suffix made
uppercase.  The nanoid output is the explicit `suffix` parameter. -/
def generateDiscountCode (codePrefix : String) (suffix : String) : String :=
  codePrefix ++ "-" ++ toUpperCase suffix

/-- Total of the probability weights (`items.reduce((sum, item) => sum + item.probability, 0)`). -/
def sumProb (items : List GameSegment) : ℚ :=
  items.foldl (fun sum it => sum + it.probability) 0

/-- The subtraction walk of `weightedRandom`: subtract each weight from the
running remainder and return the first item at which the remainder is `≤ 0`. -/
def wrWalk (random : ℚ) : List GameSegment → Option GameSegment
  | [] => none
  | it :: rest =>
    if random - it.probability ≤ 0 then some it else wrWalk (random - it.probability) rest

/-- `weightedRandom(items)` with the `Math.random()` draw `u` explicit:
`null` on an empty list, otherwise walk with `u * totalProbability`,
falling back to the last item if the walk selects none. -/
def weightedRandom (u : ℚ) (items : List GameSegment) : Option GameSegment :=
  if items.length = 0 then none
  else
    let totalProbability := sumProb items
    match wrWalk (u * totalProbability) items with
    | some it => some it
    | none => items.getLast?

/-- `addDays(date, days)` in milliseconds. -/
def addDays (dateMs : Int) (days : Int) : Int :=
  dateMs + days * 86400000

/-- `cooldownStart.setHours(getHours() - cooldownHours)` in milliseconds. -/
def hoursAgo (nowMs : Int) (hours : Int) : Int :=
  nowMs - hours * 3600000

/-- `today.setHours(0,0,0,0)` modelled as UTC midnight. -/
def startOfDay (nowMs : Int) : Int :=
  nowMs / 86400000 * 86400000

/-- Helper for JS `String.prototype.includes`: does `pat` occur inside the list? -/
def charsInclude (pat : List Char) : List Char → Bool
  | [] => pat.isEmpty
  | c :: cs => pat.isPrefixOf (c :: cs) || charsInclude pat cs

/-- JS `s.includes(pat)`. -/
def strIncludes (s pat : String) : Bool :=
  charsInclude pat.toList s.toList

/-! ### Row-level operations shared by the handlers -/

/-- `prisma.session.findUnique({ where: { token } })`. -/
def lookupSession (st : Store) (token : String) : Option Session :=
  st.sessions.find? (fun s => decide (s.token = token))

/-- Resolution of the session's `visitor` include (foreign key). -/
def lookupVisitor (st : Store) (id : Nat) : Option Visitor :=
  st.visitors.find? (fun v => decide (v.id = id))

/-- Resolution of the visitor's `shop` include (foreign key). -/
def lookupShop (st : Store) (id : Nat) : Option Shop :=
  st.shops.find? (fun sh => decide (sh.id = id))

/-- `prisma.game.findFirst({ where: { id, shopId, isActive: true } })` —
the lookup used by `play` and by the targeting override in `init`
(no date-window condition). -/
def lookupActiveGame (st : Store) (gameId shopId : Nat) : Option Game :=
  st.games.find? (fun g => decide (g.id = gameId) && decide (g.shopId = shopId) && g.isActive)

/-- The `where` clause of the discount-rule query: active, same shop,
game-specific or shop-wide. -/
def ruleApplicable (r : DiscountRule) (shopId gameId : Nat) : Bool :=
  decide (r.shopId = shopId) && r.isActive &&
    (decide (r.gameId = some gameId) || decide (r.gameId = none))

/-- `orderBy: { createdAt: 'asc' }` followed by taking the first row:
the element of least `createdAt` (first such element on ties). -/
def pickOlder (best x : DiscountRule) : DiscountRule :=
  if x.createdAt < best.createdAt then x else best

def firstByCreatedAsc : List DiscountRule → Option DiscountRule
  | [] => none
  | r :: rs => some (rs.foldl pickOlder r)

/-- `prisma.discountRule.findFirst({ where: {shopId, isActive, OR: [{gameId}, {gameId: null}]},
orderBy: { createdAt: 'asc' } })` — used identically by `init` (lines 150-160)
and `play` (lines 413-423). -/
def findDiscountRule (rules : List DiscountRule) (shopId gameId : Nat) : Option DiscountRule :=
  firstByCreatedAsc (rules.filter (fun r => ruleApplicable r shopId gameId))

/-- `prisma.play.count` of this visitor's plays of this game with
`playedAt >= cooldownStart`. -/
def countRecentPlays (plays : List Play) (visitorId gameId : Nat) (cooldownStart : Int) : Nat :=
  (plays.filter (fun p =>
    decide (p.visitorId = visitorId) && decide (p.gameId = gameId) &&
      decide (cooldownStart ≤ p.playedAt))).length

/-- `prisma.visitor.update({ where: { id }, data: { email } })`. -/
def updateVisitorEmail (st : Store) (id : Nat) (email : Option String) : Store :=
  { st with visitors := st.visitors.map (fun v => if v.id = id then { v with email := email } else v) }

/-- The email backfill of `play` (lines 437-442): persist the supplied email
when the visitor has none, before the cooldown check. -/
def emailBackfill (st : Store) (v : Visitor) (email : Option String) : Store :=
  if email.isSome && v.email.isNone then updateVisitorEmail st v.id email else st

/-- `prisma.visitor.update` incrementing `totalPlays` (and `totalWins` on a win). -/
def incVisitorStats (st : Store) (id : Nat) (isWin : Bool) : Store :=
  { st with visitors := st.visitors.map (fun v =>
      if v.id = id then
        { v with totalPlays := v.totalPlays + 1,
                 totalWins := v.totalWins + (if isWin then 1 else 0) }
      else v) }

/-- `prisma.session.update` bumping `lastActivityAt`. -/
def touchSession (st : Store) (id : Nat) (nowMs : Int) : Store :=
  { st with sessions := st.sessions.map (fun s =>
      if s.id = id then { s with lastActivityAt := nowMs } else s) }

/-- `prisma.analytics.upsert` keyed by (shopId, gameId, date): additive
increment of `plays` (and `wins` on a win), creating the row if absent. -/
def upsertAnalytics (st : Store) (shopId gameId : Nat) (date : Int) (isWin : Bool) : Store :=
  if st.analytics.any (fun a =>
      decide (a.shopId = shopId) && decide (a.gameId = some gameId) && decide (a.date = date)) then
    { st with analytics := st.analytics.map (fun a =>
        if a.shopId = shopId ∧ a.gameId = some gameId ∧ a.date = date then
          { a with plays := a.plays + 1, wins := a.wins + (if isWin then 1 else 0) }
        else a) }
  else
    { st with analytics := ⟨shopId, some gameId, date, 1, if isWin then 1 else 0⟩ :: st.analytics }

/-- Stable insertion sort of segments by `order` ascending
(the `orderBy: { order: 'asc' }` include). -/
def insertSeg (s : GameSegment) : List GameSegment → List GameSegment
  | [] => [s]
  | x :: xs => if s.order < x.order then s :: x :: xs else x :: insertSeg s xs

def sortSegs : List GameSegment → List GameSegment
  | [] => []
  | x :: xs => insertSeg x (sortSegs xs)

/-! ### The `play` handler (`POST /api/proxy/play`, proxy.ts lines 366-654)

The handler is a straight-line sequence of awaited store operations; we split
it at the cooldown check into `playPhase1` (everything up to and including
the eligibility count — the last read the rate limit depends on) and
`playPhase2` (outcome resolution and all writes).  `play` is their sequential
composition; an interleaved execution of two concurrent requests composes
the same phases in a different order (every `await` is a suspension point,
spec §5). -/

inductive PlayError where
  | missingFields        -- 400: missing sessionToken/gameId
  | invalidSession       -- 401
  | gameNotFound         -- 404
  | noDiscountRule       -- 400
  | emailRequired        -- 400
  | playLimitReached     -- 429
  | noSegmentsConfigured -- 500 "No segments configured"
  | internalError        -- 500 (a thrown store/integration error)
deriving DecidableEq, Repr

/-- The in-memory context carried from the reads to the writes of one
`play` call. -/
structure PlayCtx where
  session : Session
  visitor : Visitor
  shop : Shop
  game : Game
  segments : List GameSegment
  rule : DiscountRule
deriving DecidableEq, Repr

/-- The success payload of `play` (the fields of the JSON response the
claims are about; the cosmetic animation angle is omitted). -/
structure PlayOk where
  playId : Nat
  result : PlayResult
  segment : GameSegment
  discount : Option Discount
deriving DecidableEq, Repr

/-- Fresh row ids (cuid generation modelled by table length). -/
def freshDiscountId (st : Store) : Nat := st.discounts.length

def freshPlayId (st : Store) : Nat := st.plays.length

/-- `play`, part 1: request validation, session/game/rule resolution, email
backfill, and the cooldown count (proxy.ts lines 366-459). -/
def playPhase1 (st : Store) (sessionToken : String) (gameId : Nat) (email : Option String)
    (now : Int) : Except PlayError PlayCtx × Store :=
  if sessionToken = "" then (.error .missingFields, st) else
  match lookupSession st sessionToken with
  | none => (.error .invalidSession, st)
  | some s =>
    if s.isActive then
      match lookupVisitor st s.visitorId with
      | none => (.error .internalError, st)
      | some v =>
        match lookupShop st v.shopId with
        | none => (.error .internalError, st)
        | some sh =>
          match lookupActiveGame st gameId sh.id with
          | none => (.error .gameNotFound, st)
          | some g =>
            match findDiscountRule st.rules sh.id g.id with
            | none => (.error .noDiscountRule, st)
            | some rule =>
              if rule.requireEmail && email.isNone && v.email.isNone then
                (.error .emailRequired, st)
              else
                let st1 := emailBackfill st v email
                if rule.maxPlaysPerVisitor ≤
                    countRecentPlays st1.plays v.id g.id (hoursAgo now rule.cooldownHours) then
                  (.error .playLimitReached, st1)
                else
                  (.ok { session := s, visitor := v, shop := sh, game := g,
                         segments := sortSegs g.segments, rule := rule }, st1)
    else (.error .invalidSession, st)

/-- The human-legible code prefix derived from the winning segment
(proxy.ts lines 482-486). -/
def segCodePart (seg : GameSegment) : String :=
  match seg.type with
  | .PERCENTAGE => "SPIN" ++ toString seg.value
  | .FREE_SHIPPING => "FREESHIP"
  | _ => "SAVE" ++ toString seg.value

/-- `play`, part 2: weighted-random outcome, discount creation on a win, the
Play row, visitor/session/analytics updates (proxy.ts lines 461-649).
`u` is the `Math.random()` draw, `suffix` the nanoid suffix, `shopifyId` the
(possibly null) id extracted from the external Shopify response.
`failPlayCreate` injects a store failure at the `prisma.play.create` await:
the handler's catch block then returns 500 with everything already written
left in place (there is no surrounding transaction). -/
def playPhase2 (st : Store) (ctx : PlayCtx) (now : Int) (u : ℚ) (suffix : String)
    (shopifyId : Option String) (failPlayCreate : Bool) : Except PlayError PlayOk × Store :=
  match weightedRandom u ctx.segments with
  | none => (.error .noSegmentsConfigured, st)
  | some seg =>
    let isWin : Bool := decide (seg.type ≠ PrizeType.NO_PRIZE)
    let discountRow : Option Discount :=
      if isWin then
        some { id := freshDiscountId st
               shopId := ctx.shop.id
               visitorId := ctx.visitor.id
               ruleId := ctx.rule.id
               code := generateDiscountCode (segCodePart seg) suffix
               shopifyId := shopifyId
               type := seg.type
               value := seg.value
               status := .CREATED
               expiresAt := addDays now ctx.rule.validityDays }
      else none
    let st1 : Store :=
      match discountRow with
      | some d => { st with discounts := d :: st.discounts }
      | none => st
    if failPlayCreate then (.error .internalError, st1) else
    let p : Play :=
      { id := freshPlayId st1
        gameId := ctx.game.id
        visitorId := ctx.visitor.id
        result := if isWin then .WIN else .LOSE
        segmentId := seg.id
        prize := if isWin then some ⟨seg.type, seg.value, seg.label⟩ else none
        discountId := discountRow.map (fun d => d.id)
        playedAt := now }
    let st2 := { st1 with plays := p :: st1.plays }
    let st3 := incVisitorStats st2 ctx.visitor.id isWin
    let st4 := touchSession st3 ctx.session.id now
    let st5 := upsertAnalytics st4 ctx.shop.id ctx.game.id (startOfDay now) isWin
    (.ok { playId := p.id, result := p.result, segment := seg, discount := discountRow }, st5)

/-- One `play` call, executed in isolation: phase 1 then phase 2. -/
def play (st : Store) (sessionToken : String) (gameId : Nat) (email : Option String)
    (now : Int) (u : ℚ) (suffix : String) (shopifyId : Option String) :
    Except PlayError PlayOk × Store :=
  match playPhase1 st sessionToken gameId email now with
  | (.error e, st1) => (.error e, st1)
  | (.ok ctx, st1) => playPhase2 st1 ctx now u suffix shopifyId false

/-- One `play` call in which the `prisma.play.create` await fails (a store
error after the discount row is already committed). -/
def playWithPlayCreateFailure (st : Store) (sessionToken : String) (gameId : Nat)
    (email : Option String) (now : Int) (u : ℚ) (suffix : String) (shopifyId : Option String) :
    Except PlayError PlayOk × Store :=
  match playPhase1 st sessionToken gameId email now with
  | (.error e, st1) => (.error e, st1)
  | (.ok ctx, st1) => playPhase2 st1 ctx now u suffix shopifyId true

/-- Two concurrent `play` calls for the same visitor and game, interleaved at
the suspension point after the cooldown count: both phase-1 reads run before
either phase-2 write (schedule P1₁ P1₂ P2₁ P2₂). -/
def playPair (st : Store) (sessionToken : String) (gameId : Nat) (email : Option String)
    (now : Int) (u₁ u₂ : ℚ) (sfx₁ sfx₂ : String) :
    (Except PlayError PlayOk × Except PlayError PlayOk) × Store :=
  let r₁ := playPhase1 st sessionToken gameId email now
  let r₂ := playPhase1 r₁.2 sessionToken gameId email now
  let o₁ : Except PlayError PlayOk × Store :=
    match r₁.1 with
    | .error e => (.error e, r₂.2)
    | .ok ctx => playPhase2 r₂.2 ctx now u₁ sfx₁ none false
  let o₂ : Except PlayError PlayOk × Store :=
    match r₂.1 with
    | .error e => (.error e, o₁.2)
    | .ok ctx => playPhase2 o₁.2 ctx now u₂ sfx₂ none false
  ((o₁.1, o₂.1), o₂.2)

/-! ### The `verify` handler (`POST /api/proxy/verify`, proxy.ts lines 786-838) -/

structure VerifyResult where
  valid : Bool
  reason : Option String
deriving DecidableEq, Repr

/-- The `where` clause of the verify lookup: code equality against the
uppercased input, optionally constrained to the shop with the given domain. -/
def discountMatches (st : Store) (codeUp : String) (shopDomain : Option String)
    (d : Discount) : Bool :=
  decide (d.code = codeUp) &&
    match shopDomain with
    | some dom =>
      match lookupShop st d.shopId with
      | some sh => decide (sh.domain = dom)
      | none => false
    | none => true

/-- `verify(code, shop?)` at time `now`: not-found / already-used / expired /
valid, exactly in the handler's order. -/
def verify (st : Store) (code : String) (shopDomain : Option String) (now : Int) : VerifyResult :=
  match st.discounts.find? (discountMatches st (toUpperCase code) shopDomain) with
  | none => ⟨false, some "Code not found"⟩
  | some d =>
    if d.status = .USED then ⟨false, some "Code already used"⟩
    else if d.status = .EXPIRED ∨ d.expiresAt < now then ⟨false, some "Code expired"⟩
    else ⟨true, none⟩

/-! ### Game selection in the `init` handler (proxy.ts lines 122-142, 200-321) -/

/-- The date-window part of the default active-game query
(`startDate` ≤ now if set, now ≤ `endDate` if set). -/
def gameWindowOk (g : Game) (now : Int) : Bool :=
  (match g.startDate with | none => true | some s => decide (s ≤ now)) &&
  (match g.endDate with | none => true | some e => decide (now ≤ e))

/-- A Game is "active" (spec §3): `isActive` and the current time within
`[startDate, endDate]`. -/
def gameActiveAt (g : Game) (now : Int) : Bool :=
  g.isActive && gameWindowOk g now

/-- `prisma.game.findFirst` of `init`: enabled and inside its date window. -/
def defaultActiveGame (st : Store) (shopId : Nat) (now : Int) : Option Game :=
  st.games.find? (fun g => decide (g.shopId = shopId) && g.isActive && gameWindowOk g now)

/-- Page type derived from the path (proxy.ts lines 217-220). -/
def pageTypeOf (page : Option String) : String :=
  match page with
  | some p =>
    if strIncludes p "/products/" then "product"
    else if strIncludes p "/collections/" then "collection"
    else if p = "/" then "index"
    else if strIncludes p "/cart" then "cart"
    else "page"
  | none => "page"

/-- Coarse traffic source (proxy.ts lines 263-266). -/
def trafficSourceOf (utmSource referrer : Option String) : String :=
  match utmSource with
  | some _ => "paid"
  | none =>
    match referrer with
    | some r =>
      if strIncludes r "google" then "organic"
      else if strIncludes r "facebook" || strIncludes r "instagram" then "social"
      else "referral"
    | none => "direct"

/-- The conjunction a targeting rule tests against the visit
(proxy.ts lines 212-296); an empty/unset field matches everything, and the
UTM list is only consulted when the request carries a UTM source. -/
def ruleMatches (rule : TargetingRule) (page referrer utmSource : Option String)
    (visitor : Visitor) (isNewVisitor : Bool) (day : Nat) (hour : Int) : Bool :=
  (if rule.pageType ≠ [] then decide (pageTypeOf page ∈ rule.pageType) else true) &&
  (if rule.devices ≠ [] then decide (visitor.device.getD "desktop" ∈ rule.devices) else true) &&
  (match rule.visitorType with
   | .ALL => true
   | .NEW => isNewVisitor
   | .RETURNING => !isNewVisitor
   | .CUSTOMERS => visitor.customerId.isSome
   | .NON_CUSTOMERS => visitor.customerId.isNone
   | .LOGGED_IN => visitor.email.isSome
   | .NOT_LOGGED_IN => visitor.email.isNone) &&
  (if rule.trafficSource ≠ [] then
      decide (trafficSourceOf utmSource referrer ∈ rule.trafficSource)
    else true) &&
  (if rule.utmSource ≠ [] ∧ utmSource.isSome then
      decide (utmSource.getD "" ∈ rule.utmSource)
    else true) &&
  (if rule.scheduleEnabled then
      (if rule.scheduleDays ≠ [] then decide (day ∈ rule.scheduleDays) else true) &&
      (match rule.scheduleStartHour, rule.scheduleEndHour with
       | some s, some e => decide (s ≤ hour ∧ hour ≤ e)
       | _, _ => true)
    else true)

/-- `prisma.targetingRule.findMany({ where: { shopId, isActive: true } })`. -/
def activeTargeting (st : Store) (shopId : Nat) : List TargetingRule :=
  st.targeting.filter (fun r => decide (r.shopId = shopId) && r.isActive)

/-- Stable insertion sort by `priority` descending (`orderBy: { priority: 'desc' }`). -/
def insertDesc (r : TargetingRule) : List TargetingRule → List TargetingRule
  | [] => [r]
  | x :: xs => if x.priority < r.priority then r :: x :: xs else x :: insertDesc r xs

def sortByPriorityDesc : List TargetingRule → List TargetingRule
  | [] => []
  | x :: xs => insertDesc x (sortByPriorityDesc xs)

/-- The rule-evaluation loop: first rule (in descending priority order) whose
conjunction matches. -/
def findMatch (st : Store) (shopId : Nat) (page referrer utmSource : Option String)
    (visitor : Visitor) (isNewVisitor : Bool) (day : Nat) (hour : Int) : Option TargetingRule :=
  (sortByPriorityDesc (activeTargeting st shopId)).find?
    (fun r => ruleMatches r page referrer utmSource visitor isNewVisitor day hour)

/-- `targetedGameId && (!activeGame || activeGame.id !== targetedGameId)`. -/
def overrideApplies (activeGame : Option Game) (gid : Nat) : Bool :=
  match activeGame with
  | none => true
  | some g => decide (g.id ≠ gid)

/-- The active Game returned by `init`: the default enabled-and-in-window
game, overridden by the first matching targeting rule's target when that
target resolves by `{ id, shopId, isActive: true }` — the target's date
window is not consulted. -/
def initActiveGame (st : Store) (shopId : Nat) (page referrer utmSource : Option String)
    (visitor : Visitor) (isNewVisitor : Bool) (now : Int) (day : Nat) (hour : Int) :
    Option Game :=
  let activeGame := defaultActiveGame st shopId now
  match (findMatch st shopId page referrer utmSource visitor isNewVisitor day hour).bind
      (fun r => r.gameId) with
  | none => activeGame
  | some gid =>
    if overrideApplies activeGame gid then
      match lookupActiveGame st gid shopId with
      | some tg => some tg
      | none => activeGame
    else activeGame

/-! ### Definitions following the spec's words (for refinement comparison) -/

/-- Most-recently-created rule of a list (last on ties). -/
def mostRecentByCreated : List DiscountRule → Option DiscountRule
  | [] => none
  | r :: rs => some (rs.foldl (fun best x => if best.createdAt < x.createdAt then x else best) r)

/-- Following the spec's words (§3): "most-recently-created game-specific
rule, else most-recently-created shop-wide rule", among active rules of the
shop.  Compared against the source's `findDiscountRule`. -/
def specSelectRule (rules : List DiscountRule) (shopId gameId : Nat) : Option DiscountRule :=
  let actives := rules.filter (fun r => decide (r.shopId = shopId) && r.isActive)
  match mostRecentByCreated (actives.filter (fun r => decide (r.gameId = some gameId))) with
  | some r => some r
  | none => mostRecentByCreated (actives.filter (fun r => decide (r.gameId = none)))

/-- Following the spec's words (§4.4 / claim C4): "the segment whose
cumulative-weight interval contains the uniform draw": the segment `i` with
`w₁+…+wᵢ₋₁ ≤ d < w₁+…+wᵢ`.  Compared against the source's `weightedRandom`. -/
def specIntervalSelect (d : ℚ) : List GameSegment → Option GameSegment
  | [] => none
  | s :: rest => if 0 ≤ d ∧ d < s.probability then some s else specIntervalSelect (d - s.probability) rest

/-- Cumulative weight of the first `i + 1` segments. -/
def cumThrough (items : List GameSegment) (i : Nat) : ℚ :=
  ((items.take (i + 1)).map (fun s => s.probability)).sum

/-! ### Concrete fixtures used by witnesses and counterexamples -/

def baseShop : Shop := ⟨0, "test-shop.example", true, "tok"⟩

def baseVisitor : Visitor := ⟨0, 0, "fp", some "v@example.com", none, some "desktop", 0, 0⟩

def visitorNoEmail : Visitor := ⟨0, 0, "fp", none, none, some "desktop", 0, 0⟩

def baseSession : Session := ⟨0, 0, "T", true, 0⟩

/-- A losing segment of weight 1. -/
def segLose1 : GameSegment := ⟨10, "lose", .NO_PRIZE, 0, 1, "gray", 0⟩

/-- A losing segment of weight 0. -/
def segLose0 : GameSegment := ⟨10, "lose", .NO_PRIZE, 0, 0, "gray", 0⟩

/-- A winning 10-percent segment of weight 1. -/
def segWin10 : GameSegment := ⟨11, "10 percent", .PERCENTAGE, 10, 1, "red", 0⟩

def mkGame (segs : List GameSegment) : Game :=
  ⟨1, 0, .SPIN_WHEEL, "wheel", true, none, none, segs⟩

def baseRule : DiscountRule :=
  { id := 5, shopId := 0, gameId := some 1, isActive := true, createdAt := 0,
    maxPlaysPerVisitor := 1, cooldownHours := 24, requireEmail := false, validityDays := 7 }

def mkStore (v : Visitor) (segs : List GameSegment) (plays : List Play) : Store :=
  { shops := [baseShop], visitors := [v], sessions := [baseSession],
    games := [mkGame segs], rules := [baseRule], targeting := [],
    plays := plays, discounts := [], analytics := [] }

/-- Store with an eligible visitor and a weight-1 losing segment. -/
def stLose : Store := mkStore baseVisitor [segLose1] []

/-- Store with an eligible visitor and a weight-1 winning segment. -/
def stWin : Store := mkStore baseVisitor [segWin10] []

/-- Store whose game's only segment has weight 0. -/
def stZero : Store := mkStore baseVisitor [segLose0] []

/-- A play already inside the cooldown window. -/
def prevPlay : Play := ⟨0, 1, 0, .LOSE, 10, none, none, 999999⟩

/-- Store in which the visitor has exhausted the play limit. -/
def stLimited : Store := mkStore baseVisitor [segLose1] [prevPlay]

/-- Exhausted store whose visitor has no email yet. -/
def stLimitedNoEmail : Store := mkStore visitorNoEmail [segLose1] [prevPlay]

/-- An older shop-wide rule and a newer game-specific rule for game 7. -/
def exRuleShopWide : DiscountRule :=
  { id := 1, shopId := 0, gameId := none, isActive := true, createdAt := 1,
    maxPlaysPerVisitor := 1, cooldownHours := 24, requireEmail := false, validityDays := 7 }

def exRuleGameSpecific : DiscountRule :=
  { id := 2, shopId := 0, gameId := some 7, isActive := true, createdAt := 2,
    maxPlaysPerVisitor := 1, cooldownHours := 24, requireEmail := false, validityDays := 7 }

/-- Two equal-weight segments for the boundary-draw counterexample. -/
def segA : GameSegment := ⟨1, "a", .NO_PRIZE, 0, 1, "c", 0⟩

def segB : GameSegment := ⟨2, "b", .NO_PRIZE, 0, 1, "c", 1⟩

/-- Unequal weights for the weighted-selection witness. -/
def segC : GameSegment := ⟨3, "c", .NO_PRIZE, 0, 3, "c", 2⟩

/-- Default enabled game, open date window. -/
def gameDefault : Game := ⟨1, 0, .SPIN_WHEEL, "g1", true, none, none, []⟩

/-- Enabled game whose date window has already ended (`endDate = 0`). -/
def gameExpired : Game := ⟨2, 0, .SPIN_WHEEL, "g2", true, none, some 0, []⟩

/-- Enabled game with an open window, target of the witness rule. -/
def gameTarget : Game := ⟨3, 0, .SPIN_WHEEL, "g3", true, none, none, []⟩

/-- Targeting rule with every field unset: matches every visit; points at game 2. -/
def ruleAllTo2 : TargetingRule :=
  { id := 1, shopId := 0, isActive := true, priority := 10, gameId := some 2,
    pageType := [], devices := [], visitorType := .ALL, trafficSource := [],
    utmSource := [], scheduleEnabled := false, scheduleDays := [],
    scheduleStartHour := none, scheduleEndHour := none }

/-- Same, pointing at game 3. -/
def ruleAllTo3 : TargetingRule :=
  { ruleAllTo2 with gameId := some 3 }

def stTargetExpired : Store :=
  { shops := [baseShop], visitors := [baseVisitor], sessions := [],
    games := [gameDefault, gameExpired], rules := [], targeting := [ruleAllTo2],
    plays := [], discounts := [], analytics := [] }

def stTargetActive : Store :=
  { shops := [baseShop], visitors := [baseVisitor], sessions := [],
    games := [gameDefault, gameTarget], rules := [], targeting := [ruleAllTo3],
    plays := [], discounts := [], analytics := [] }

/-- The discount row created by the winning play on `stWin` at time 1000000
with draw 0 and nanoid suffix "AB". -/
def exWinDiscount : Discount :=
  { id := 0, shopId := 0, visitorId := 0, ruleId := 5, code := "SPIN10-AB",
    shopifyId := none, type := .PERCENTAGE, value := 10, status := .CREATED,
    expiresAt := 605800000 }

/-- The play row created by that winning play. -/
def exWinPlay : Play :=
  { id := 0, gameId := 1, visitorId := 0, result := .WIN, segmentId := 11,
    prize := some ⟨.PERCENTAGE, 10, "10 percent"⟩, discountId := some 0,
    playedAt := 1000000 }

/-- Its response payload. -/
def exWinOut : PlayOk :=
  { playId := 0, result := .WIN, segment := segWin10, discount := some exWinDiscount }

/-- The store after that winning play. -/
def stWinFinal : Store :=
  { shops := [baseShop],
    visitors := [{ baseVisitor with totalPlays := 1, totalWins := 1 }],
    sessions := [{ baseSession with lastActivityAt := 1000000 }],
    games := [mkGame [segWin10]], rules := [baseRule], targeting := [],
    plays := [exWinPlay], discounts := [exWinDiscount],
    analytics := [⟨0, some 1, 0, 1, 1⟩] }

/-- A CREATED discount with a generated-style (uppercase) code. -/
def exDiscount : Discount :=
  { id := 0, shopId := 0, visitorId := 0, ruleId := 5, code := "SPIN10-ABC",
    shopifyId := none, type := .PERCENTAGE, value := 10, status := .CREATED,
    expiresAt := 1000 }

def stVerify : Store :=
  { shops := [baseShop], visitors := [], sessions := [], games := [], rules := [],
    targeting := [], plays := [], discounts := [exDiscount], analytics := [] }

/-! ### Helper lemmas -/

lemma emailBackfill_plays (st : Store) (v : Visitor) (e : Option String) :
    (emailBackfill st v e).plays = st.plays := by
  unfold emailBackfill updateVisitorEmail; split <;> rfl

lemma emailBackfill_discounts (st : Store) (v : Visitor) (e : Option String) :
    (emailBackfill st v e).discounts = st.discounts := by
  unfold emailBackfill updateVisitorEmail; split <;> rfl

lemma emailBackfill_analytics (st : Store) (v : Visitor) (e : Option String) :
    (emailBackfill st v e).analytics = st.analytics := by
  unfold emailBackfill updateVisitorEmail; split <;> rfl

lemma upsertAnalytics_plays (st : Store) (shopId gameId : Nat) (date : Int) (w : Bool) :
    (upsertAnalytics st shopId gameId date w).plays = st.plays := by
  unfold upsertAnalytics; split <;> rfl

lemma upsertAnalytics_discounts (st : Store) (shopId gameId : Nat) (date : Int) (w : Bool) :
    (upsertAnalytics st shopId gameId date w).discounts = st.discounts := by
  unfold upsertAnalytics; split <;> rfl

lemma playPhase1_snd_plays (st : Store) (tok : String) (gid : Nat) (email : Option String)
    (now : Int) : ((playPhase1 st tok gid email now).2).plays = st.plays := by
  unfold playPhase1
  repeat' split
  all_goals try rfl
  all_goals dsimp only
  all_goals repeat' split
  all_goals exact emailBackfill_plays _ _ _

lemma playPhase1_snd_discounts (st : Store) (tok : String) (gid : Nat) (email : Option String)
    (now : Int) : ((playPhase1 st tok gid email now).2).discounts = st.discounts := by
  unfold playPhase1
  repeat' split
  all_goals try rfl
  all_goals dsimp only
  all_goals repeat' split
  all_goals exact emailBackfill_discounts _ _ _

/-- `find?` returns the unique element satisfying the predicate. -/
lemma findOfUnique {α : Type} (p : α → Bool) :
    ∀ (l : List α) (a : α), a ∈ l → p a = true → (∀ x ∈ l, p x = true → x = a) →
      l.find? p = some a := by
  intro l
  induction l with
  | nil => intro a hmem _ _; cases hmem
  | cons h t ih =>
    intro a hmem hp hu
    cases hh : p h with
    | true =>
      have : h = a := hu h (List.mem_cons_self h t) hh
      subst this
      simp [List.find?, hh]
    | false =>
      have hne : a ≠ h := by
        intro he; rw [he, hh] at hp; cases hp
      have hat : a ∈ t := by
        rcases List.mem_cons.mp hmem with h1 | h1
        · exact absurd h1 hne
        · exact h1
      simp only [List.find?, hh]
      exact ih a hat hp (fun x hx hpx => hu x (List.mem_cons_of_mem _ hx) hpx)

lemma foldl_pickOlder_mem :
    ∀ (l : List DiscountRule) (b : DiscountRule),
      l.foldl pickOlder b = b ∨ l.foldl pickOlder b ∈ l := by
  intro l
  induction l with
  | nil => intro b; left; rfl
  | cons x xs ih =>
    intro b
    rw [List.foldl_cons]
    rcases ih (pickOlder b x) with h | h
    · by_cases hc : x.createdAt < b.createdAt
      · right; rw [h]; simp [pickOlder, hc]
      · left; rw [h]; simp [pickOlder, hc]
    · right; exact List.mem_cons_of_mem _ h

lemma foldl_pickOlder_le :
    ∀ (l : List DiscountRule) (b : DiscountRule),
      (l.foldl pickOlder b).createdAt ≤ b.createdAt ∧
      ∀ x ∈ l, (l.foldl pickOlder b).createdAt ≤ x.createdAt := by
  intro l
  induction l with
  | nil => intro b; exact ⟨le_refl _, fun x hx => absurd hx (List.not_mem_nil x)⟩
  | cons y ys ih =>
    intro b
    rw [List.foldl_cons]
    obtain ⟨ha, hb⟩ := ih (pickOlder b y)
    have h1 : (pickOlder b y).createdAt ≤ b.createdAt := by
      by_cases hc : y.createdAt < b.createdAt <;> simp [pickOlder, hc]
      exact le_of_lt hc
    have h2 : (pickOlder b y).createdAt ≤ y.createdAt := by
      by_cases hc : y.createdAt < b.createdAt <;> simp [pickOlder, hc]
      exact le_of_not_lt hc
    refine ⟨le_trans ha h1, ?_⟩
    intro x hx
    rcases List.mem_cons.mp hx with h | h
    · subst h; exact le_trans ha h2
    · exact hb x h

lemma incVisitorStats_plays (st : Store) (i : Nat) (w : Bool) :
    (incVisitorStats st i w).plays = st.plays := rfl

lemma incVisitorStats_discounts (st : Store) (i : Nat) (w : Bool) :
    (incVisitorStats st i w).discounts = st.discounts := rfl

lemma touchSession_plays (st : Store) (i : Nat) (n : Int) :
    (touchSession st i n).plays = st.plays := rfl

lemma touchSession_discounts (st : Store) (i : Nat) (n : Int) :
    (touchSession st i n).discounts = st.discounts := rfl

lemma sumProb_go : ∀ (l : List GameSegment) (c : ℚ),
    l.foldl (fun sum it => sum + it.probability) c = c + sumProb l := by
  intro l
  induction l with
  | nil => intro c; simp [sumProb]
  | cons x xs ih =>
    intro c
    have h1 : List.foldl (fun sum it => sum + it.probability) c (x :: xs) =
        List.foldl (fun sum it => sum + it.probability) (c + x.probability) xs := rfl
    have h2 : sumProb (x :: xs) =
        List.foldl (fun sum it => sum + it.probability) (0 + x.probability) xs := rfl
    rw [h1, h2, ih, ih]
    ring

lemma sumProb_cons (x : GameSegment) (xs : List GameSegment) :
    sumProb (x :: xs) = x.probability + sumProb xs := by
  have h : sumProb (x :: xs) =
      List.foldl (fun sum it => sum + it.probability) (0 + x.probability) xs := rfl
  rw [h, sumProb_go]
  ring

lemma sumProb_nil : sumProb [] = 0 := rfl

lemma cumThrough_cons_zero (x : GameSegment) (xs : List GameSegment) :
    cumThrough (x :: xs) 0 = x.probability := by
  simp [cumThrough]

lemma cumThrough_cons_succ (x : GameSegment) (xs : List GameSegment) (j : Nat) :
    cumThrough (x :: xs) (j + 1) = x.probability + cumThrough xs j := by
  simp [cumThrough, List.take_succ_cons]

/-- The walk of `weightedRandom` returns the first segment whose cumulative
weight is at least the remainder `d` (whenever `d` does not exceed the total). -/
lemma wrWalk_first_cum :
    ∀ (items : List GameSegment) (d : ℚ), items ≠ [] → d ≤ sumProb items →
      ∃ i, ∃ hi : i < items.length, wrWalk d items = some (items.get ⟨i, hi⟩) ∧
        d ≤ cumThrough items i ∧ ∀ j, j < i → cumThrough items j < d := by
  intro items
  induction items with
  | nil => intro d h _; exact absurd rfl h
  | cons it rest ih =>
    intro d _ hd
    by_cases hle : d - it.probability ≤ 0
    · refine ⟨0, by simp, ?_, ?_, ?_⟩
      · simp [wrWalk, hle]
      · rw [cumThrough_cons_zero]; linarith
      · intro j hj; exact absurd hj (Nat.not_lt_zero j)
    · have hit : it.probability < d := by
        have := not_le.mp hle; linarith
      have hrest : rest ≠ [] := by
        intro he
        subst he
        rw [sumProb_cons, sumProb_nil] at hd
        linarith
      have hd' : d - it.probability ≤ sumProb rest := by
        rw [sumProb_cons] at hd; linarith
      obtain ⟨i, hi, heq, hcum, hlt⟩ := ih (d - it.probability) hrest hd'
      refine ⟨i + 1, by simpa using Nat.succ_lt_succ hi, ?_, ?_, ?_⟩
      · simp only [wrWalk, if_neg hle]
        rw [heq]
        rfl
      · rw [cumThrough_cons_succ]; linarith
      · intro j hj
        cases j with
        | zero => rw [cumThrough_cons_zero]; exact hit
        | succ k =>
          rw [cumThrough_cons_succ]
          have := hlt k (Nat.lt_of_succ_lt_succ hj)
          linarith

/-- Updating one visitor's email by id preserves lookup, with the email changed. -/
lemma find_update_email :
    ∀ (l : List Visitor) (i : Nat) (e : Option String) (v : Visitor),
      l.find? (fun x => decide (x.id = i)) = some v →
      (l.map (fun w => if w.id = i then { w with email := e } else w)).find?
          (fun x => decide (x.id = i)) = some { v with email := e } := by
  intro l
  induction l with
  | nil => intro i e v h; cases h
  | cons x xs ih =>
    intro i e v h
    by_cases hx : x.id = i
    · simp only [List.find?, decide_eq_true hx] at h
      injection h with h
      subst h
      simp only [List.map_cons, if_pos hx]
      have hid : ({ x with email := e } : Visitor).id = i := hx
      simp only [List.find?, decide_eq_true hid]
    · have hdx : (decide (x.id = i)) = false := decide_eq_false hx
      simp only [List.find?, hdx] at h
      simp only [List.map_cons, if_neg hx, List.find?, hdx]
      exact ih i e v h

lemma insertDesc_mem :
    ∀ (l : List TargetingRule) (r x : TargetingRule),
      x ∈ insertDesc r l ↔ x = r ∨ x ∈ l := by
  intro l
  induction l with
  | nil => intro r x; simp [insertDesc]
  | cons y ys ih =>
    intro r x
    unfold insertDesc
    by_cases hc : y.priority < r.priority
    · rw [if_pos hc]
      simp [List.mem_cons]
    · rw [if_neg hc]
      simp only [List.mem_cons, ih]
      tauto

lemma sortDesc_mem (l : List TargetingRule) (x : TargetingRule) :
    x ∈ sortByPriorityDesc l ↔ x ∈ l := by
  induction l with
  | nil => simp [sortByPriorityDesc]
  | cons y ys ih =>
    unfold sortByPriorityDesc
    rw [insertDesc_mem]
    simp only [List.mem_cons, ih]

lemma pairwise_insertDesc :
    ∀ (l : List TargetingRule) (r : TargetingRule),
      List.Pairwise (fun a b => b.priority ≤ a.priority) l →
      List.Pairwise (fun a b => b.priority ≤ a.priority) (insertDesc r l) := by
  intro l
  induction l with
  | nil => intro r _; simp [insertDesc]
  | cons x xs ih =>
    intro r h
    rw [List.pairwise_cons] at h
    obtain ⟨hx, hxs⟩ := h
    unfold insertDesc
    by_cases hc : x.priority < r.priority
    · rw [if_pos hc]
      refine List.Pairwise.cons ?_ (List.Pairwise.cons hx hxs)
      intro y hy
      rcases List.mem_cons.mp hy with rfl | hy2
      · exact le_of_lt hc
      · exact le_trans (hx y hy2) (le_of_lt hc)
    · rw [if_neg hc]
      refine List.Pairwise.cons ?_ (ih r hxs)
      intro y hy
      rcases (insertDesc_mem xs r y).mp hy with rfl | hy2
      · exact le_of_not_lt hc
      · exact hx y hy2

lemma sortDesc_pairwise (l : List TargetingRule) :
    List.Pairwise (fun a b => b.priority ≤ a.priority) (sortByPriorityDesc l) := by
  induction l with
  | nil => simp [sortByPriorityDesc]
  | cons x xs ih => exact pairwise_insertDesc _ x ih

/-- In a list sorted by priority descending, everything of strictly higher
priority than the first match fails the predicate. -/
lemma find_desc_max :
    ∀ (l : List TargetingRule) (p : TargetingRule → Bool) (x : TargetingRule),
      List.Pairwise (fun a b => b.priority ≤ a.priority) l → l.find? p = some x →
      ∀ y ∈ l, x.priority < y.priority → p y = false := by
  intro l p x
  induction l with
  | nil => intro _ h; cases h
  | cons h t ih =>
    intro hpw hf y hy hlt
    rw [List.pairwise_cons] at hpw
    obtain ⟨hh, ht⟩ := hpw
    cases hph : p h with
    | true =>
      simp only [List.find?, hph] at hf
      injection hf with hf
      subst hf
      rcases List.mem_cons.mp hy with rfl | hy2
      · exact absurd hlt (lt_irrefl _)
      · exact absurd hlt (not_lt.mpr (hh y hy2))
    | false =>
      simp only [List.find?, hph] at hf
      rcases List.mem_cons.mp hy with rfl | hy2
      · exact hph
      · exact ih ht hf y hy2 hlt

/-- `playPhase1` under resolved lookups: everything reduces to the cooldown
check, with the email backfill already applied to the store. -/
lemma playPhase1_resolved (st : Store) (tok : String) (gid : Nat) (email : Option String)
    (now : Int) (s : Session) (v : Visitor) (sh : Shop) (g : Game) (rule : DiscountRule)
    (htok : ¬ tok = "")
    (hs : lookupSession st tok = some s) (hsa : s.isActive = true)
    (hv : lookupVisitor st s.visitorId = some v)
    (hsh : lookupShop st v.shopId = some sh)
    (hg : lookupActiveGame st gid sh.id = some g)
    (hr : findDiscountRule st.rules sh.id g.id = some rule)
    (hguard : (rule.requireEmail && email.isNone && v.email.isNone) = false) :
    playPhase1 st tok gid email now =
      if rule.maxPlaysPerVisitor ≤
          countRecentPlays st.plays v.id g.id (hoursAgo now rule.cooldownHours) then
        (.error .playLimitReached, emailBackfill st v email)
      else
        (.ok ⟨s, v, sh, g, sortSegs g.segments, rule⟩, emailBackfill st v email) := by
  unfold playPhase1
  rw [if_neg htok]
  simp only [hs, hsa, hv, hsh, hg, hr, hguard, if_true, Bool.false_eq_true, if_false,
    emailBackfill_plays]

/-- Successful `playPhase2`: exactly one Play row is added; it is a WIN with
exactly one new Discount referenced if and only if the selected segment is
not `NO_PRIZE`, and a LOSE with no Discount otherwise. -/
lemma playPhase2_ok_shape (st : Store) (ctx : PlayCtx) (now : Int) (u : ℚ) (sfx : String)
    (sid : Option String) (out : PlayOk) (st_fin : Store)
    (h : playPhase2 st ctx now u sfx sid false = (.ok out, st_fin)) :
    ∃ p : Play, st_fin.plays = p :: st.plays ∧ p.result = out.result ∧
      (out.result = .WIN ↔ out.segment.type ≠ .NO_PRIZE) ∧
      (out.segment.type ≠ .NO_PRIZE →
        ∃ d : Discount, st_fin.discounts = d :: st.discounts ∧ p.discountId = some d.id ∧
          out.discount = some d) ∧
      (out.segment.type = .NO_PRIZE →
        p.discountId = none ∧ st_fin.discounts = st.discounts ∧ out.discount = none) := by
  unfold playPhase2 at h
  cases hw : weightedRandom u ctx.segments with
  | none =>
    rw [hw] at h
    cases h
  | some seg =>
    rw [hw] at h
    by_cases hwin : seg.type = PrizeType.NO_PRIZE
    · simp only [hwin, ne_eq, not_true_eq_false, decide_False, Bool.false_eq_true, if_false] at h
      obtain ⟨hout, hst⟩ := Prod.mk.injEq .. ▸ h
      replace hout := Except.ok.inj hout
      subst hout
      subst hst
      refine ⟨{ id := freshPlayId st, gameId := ctx.game.id, visitorId := ctx.visitor.id,
                result := .LOSE, segmentId := seg.id, prize := none, discountId := none,
                playedAt := now }, ?_, ?_, ?_, ?_, ?_⟩
      · simp only [upsertAnalytics_plays, touchSession_plays, incVisitorStats_plays]
        rfl
      · rfl
      · simp [hwin]
      · intro hc; exact absurd hwin hc
      · intro _
        refine ⟨rfl, ?_, rfl⟩
        simp only [upsertAnalytics_discounts, touchSession_discounts, incVisitorStats_discounts]
    · simp only [ne_eq, hwin, not_false_eq_true, decide_True, if_true, Bool.false_eq_true,
        if_false] at h
      obtain ⟨hout, hst⟩ := Prod.mk.injEq .. ▸ h
      replace hout := Except.ok.inj hout
      subst hout
      subst hst
      refine ⟨{ id := freshPlayId st, gameId := ctx.game.id, visitorId := ctx.visitor.id,
                result := .WIN, segmentId := seg.id,
                prize := some ⟨seg.type, seg.value, seg.label⟩,
                discountId := some (freshDiscountId st), playedAt := now }, ?_, ?_, ?_, ?_, ?_⟩
      · simp only [upsertAnalytics_plays, touchSession_plays, incVisitorStats_plays]
        rfl
      · rfl
      · simp [hwin]
      · intro _
        refine ⟨{ id := freshDiscountId st, shopId := ctx.shop.id, visitorId := ctx.visitor.id,
                  ruleId := ctx.rule.id, code := generateDiscountCode (segCodePart seg) sfx,
                  shopifyId := sid, type := seg.type, value := seg.value,
                  status := .CREATED, expiresAt := addDays now ctx.rule.validityDays },
                ?_, rfl, rfl⟩
        simp only [upsertAnalytics_discounts, touchSession_discounts, incVisitorStats_discounts]
      · intro hc; exact absurd hc hwin

lemma sumProb_zero_of_all_zero :
    ∀ (items : List GameSegment), (∀ s ∈ items, s.probability = 0) → sumProb items = 0 := by
  intro items
  induction items with
  | nil => intro _; rfl
  | cons x xs ih =>
    intro hz
    rw [sumProb_cons, hz x (List.mem_cons_self x xs),
      ih (fun s hs => hz s (List.mem_cons_of_mem _ hs))]
    ring

/-! ### Claim theorems -/

/-- C4 (corrected), counterexample: with two segments of weight 1 and the
draw `u = 1/2` (so a drawn value of exactly 1, the cumulative boundary),
`weightedRandom` returns the FIRST segment, while the segment whose
cumulative-weight interval `[0,1) / [1,2)` contains the draw is the second:
the claim's interval phrasing fails at boundary draws. -/
theorem weightedRandom_interval_counterexample :
    weightedRandom (1/2) [segA, segB] = some segA ∧
    specIntervalSelect ((1/2) * sumProb [segA, segB]) [segA, segB] = some segB ∧
    segA ≠ segB := by
  refine ⟨?_, ?_, ?_⟩
  · norm_num [weightedRandom, wrWalk, sumProb, segA, segB]
  · norm_num [specIntervalSelect, sumProb, segA, segB]
  · simp [segA, segB]

/-- C4 (corrected), amended claim: for a non-empty list with nonnegative
weights and positive total, `weightedRandom` with draw `u ∈ [0,1)` selects
the FIRST segment whose cumulative weight is `≥ u * total` (a draw equal to
a cumulative boundary selects the earlier segment; for draws strictly inside
a segment's cumulative interval this is the interval-containing segment),
and the walk always selects a segment, so the last-segment fallback is never
needed for such draws. -/
theorem weightedRandom_first_cumulative (items : List GameSegment) (u : ℚ)
    (h1 : items ≠ []) (h2 : ∀ s ∈ items, 0 ≤ s.probability)
    (h3 : 0 < sumProb items) (h4 : 0 ≤ u) (h5 : u < 1) :
    ∃ i, ∃ hi : i < items.length,
      weightedRandom u items = some (items.get ⟨i, hi⟩) ∧
      u * sumProb items ≤ cumThrough items i ∧
      ∀ j, j < i → cumThrough items j < u * sumProb items := by
  have hd : u * sumProb items ≤ sumProb items := by nlinarith
  obtain ⟨i, hi, heq, hcum, hlt⟩ := wrWalk_first_cum items (u * sumProb items) h1 hd
  refine ⟨i, hi, ?_, hcum, hlt⟩
  unfold weightedRandom
  rw [if_neg (by simpa using h1)]
  dsimp only
  rw [heq]

/-- C4 witness: weights (1, 3) and draw 1/2 select the second segment, whose
cumulative weight 4 bounds the drawn value 2 while the first cumulative
weight 1 lies strictly below it. -/
theorem weightedRandom_first_cumulative_witness :
    ∃ i, ∃ hi : i < ([segA, segC] : List GameSegment).length,
      weightedRandom (1/2) [segA, segC] = some (([segA, segC] : List GameSegment).get ⟨i, hi⟩) ∧
      (1/2 : ℚ) * sumProb [segA, segC] ≤ cumThrough [segA, segC] i ∧
      ∀ j, j < i → cumThrough [segA, segC] j < (1/2 : ℚ) * sumProb [segA, segC] :=
  weightedRandom_first_cumulative [segA, segC] (1/2) (by simp)
    (by norm_num [segA, segC]) (by norm_num [sumProb, segA, segC]) (by norm_num) (by norm_num)

/-- C5 (corrected), counterexample: a play on a game whose single segment has
weight 0 (so all weights sum to 0) is NOT rejected with the no-segments
error — the call succeeds and returns that first segment. -/
theorem playZeroWeightNotRejected :
    (play stZero "T" 1 none 1000000 (1/2) "A" none).1 = .ok ⟨0, .LOSE, segLose0, none⟩ ∧
    segLose0.probability = 0 ∧ (mkGame [segLose0]).segments = [segLose0] := by
  refine ⟨?_, rfl, rfl⟩
  simp [play, playPhase1, playPhase2, stZero, mkStore, mkGame, baseShop, baseVisitor,
    baseSession, baseRule, segLose0, lookupSession, lookupVisitor, lookupShop,
    lookupActiveGame, findDiscountRule, ruleApplicable, firstByCreatedAsc, pickOlder,
    countRecentPlays, emailBackfill, updateVisitorEmail, sortSegs, insertSeg,
    weightedRandom, sumProb, wrWalk, hoursAgo, freshPlayId, freshDiscountId]

/-- C5 (corrected), amended claim: the Outcome Resolver errors ("no segments
configured") exactly on an EMPTY segment list; a non-empty list whose weights
are all 0 is not rejected — its FIRST segment is returned (so the play
succeeds); a single segment of positive weight is always returned. -/
theorem weightedRandom_empty_zero_single :
    (∀ u : ℚ, weightedRandom u [] = none) ∧
    (∀ (items : List GameSegment) (u : ℚ), items ≠ [] →
      (∀ s ∈ items, s.probability = 0) → weightedRandom u items = items.head?) ∧
    (∀ (s : GameSegment) (u : ℚ), 0 < s.probability → 0 ≤ u → u < 1 →
      weightedRandom u [s] = some s) := by
  refine ⟨fun u => rfl, ?_, ?_⟩
  · intro items u hne hz
    cases items with
    | nil => exact absurd rfl hne
    | cons x xs =>
      have hsum : sumProb (x :: xs) = 0 := sumProb_zero_of_all_zero _ hz
      have hx : x.probability = 0 := hz x (List.mem_cons_self x xs)
      unfold weightedRandom
      rw [if_neg (by simp)]
      dsimp only
      rw [hsum, mul_zero]
      simp [wrWalk, hx]
  · intro s u hp hu hul
    have hsum : sumProb [s] = s.probability := by
      rw [sumProb_cons, sumProb_nil, add_zero]
    have hle : u * s.probability - s.probability ≤ 0 := by nlinarith
    unfold weightedRandom
    rw [if_neg (by simp)]
    dsimp only
    rw [hsum]
    simp [wrWalk, hle]

/-- C5 witness: a single positive-weight segment is always returned. -/
theorem weightedRandom_single_witness :
    weightedRandom (1/2) [segWin10] = some segWin10 :=
  weightedRandom_empty_zero_single.2.2 segWin10 (1/2) (by norm_num [segWin10]) (by norm_num)
    (by norm_num)

/-- C3 (corrected), counterexample: with an active shop-wide rule created at
time 1 and an active game-specific rule for game 7 created at time 2, the
code's selector (`orderBy createdAt asc` over the OR of both) returns the
OLDER SHOP-WIDE rule, while the spec's words ("most-recently-created
game-specific rule, else most-recently-created shop-wide") pick the
game-specific one. -/
theorem findDiscountRule_counterexample :
    findDiscountRule [exRuleShopWide, exRuleGameSpecific] 0 7 = some exRuleShopWide ∧
    specSelectRule [exRuleShopWide, exRuleGameSpecific] 0 7 = some exRuleGameSpecific ∧
    exRuleShopWide ≠ exRuleGameSpecific := by
  refine ⟨?_, ?_, ?_⟩
  · simp [findDiscountRule, ruleApplicable, firstByCreatedAsc, pickOlder,
      exRuleShopWide, exRuleGameSpecific]
  · simp [specSelectRule, mostRecentByCreated, exRuleShopWide, exRuleGameSpecific]
  · simp [exRuleShopWide, exRuleGameSpecific]

/-- C3 (corrected), amended claim: the rule selected by `init` and `play`
(both call the same query) is the EARLIEST-created active rule among the
game's own rules and shop-wide rules taken together — game-specific rules
are not preferred, and the most-recently-created rule is never chosen over
an older one. -/
theorem findDiscountRule_earliest_applicable (rules : List DiscountRule) (shopId gid : Nat)
    (r : DiscountRule) (h : findDiscountRule rules shopId gid = some r) :
    r ∈ rules ∧ ruleApplicable r shopId gid = true ∧
    ∀ x ∈ rules, ruleApplicable x shopId gid = true → r.createdAt ≤ x.createdAt := by
  unfold findDiscountRule at h
  cases hf : rules.filter (fun x => ruleApplicable x shopId gid) with
  | nil => rw [hf] at h; cases h
  | cons a l =>
    rw [hf] at h
    unfold firstByCreatedAsc at h
    injection h with h
    have hmem : r ∈ a :: l := by
      rw [← h]
      rcases foldl_pickOlder_mem l a with h2 | h2
      · rw [h2]; exact List.mem_cons_self _ _
      · exact List.mem_cons_of_mem _ h2
    have hmem2 : r ∈ rules.filter (fun x => ruleApplicable x shopId gid) := by
      rw [hf]; exact hmem
    have hmf := List.mem_filter.mp hmem2
    refine ⟨hmf.1, hmf.2, ?_⟩
    intro x hx hax
    have hxf : x ∈ rules.filter (fun y => ruleApplicable y shopId gid) :=
      List.mem_filter.mpr ⟨hx, hax⟩
    rw [hf] at hxf
    obtain ⟨hle_a, hle_l⟩ := foldl_pickOlder_le l a
    rcases List.mem_cons.mp hxf with rfl | hxl
    · rw [← h]; exact hle_a
    · rw [← h]; exact hle_l x hxl

/-- C3 witness: on the counterexample pair the selected rule is applicable
and earliest-created among all applicable rules. -/
theorem findDiscountRule_earliest_witness :
    exRuleShopWide ∈ [exRuleShopWide, exRuleGameSpecific] ∧
    ruleApplicable exRuleShopWide 0 7 = true ∧
    ∀ x ∈ [exRuleShopWide, exRuleGameSpecific], ruleApplicable x 0 7 = true →
      exRuleShopWide.createdAt ≤ x.createdAt :=
  findDiscountRule_earliest_applicable [exRuleShopWide, exRuleGameSpecific] 0 7
    exRuleShopWide (by simp [findDiscountRule, ruleApplicable, firstByCreatedAsc, pickOlder,
      exRuleShopWide, exRuleGameSpecific])

/-- C8 (confirmed): a CREATED discount found by the verify lookup (its stored
code matches the uppercased input — generated codes are uppercase prefixes
`SPINn`/`FREESHIP`/`SAVEn` plus an uppercased suffix — and it is the unique
such match) verifies as valid at every time up to and including `expiresAt`,
and as invalid with reason "Code expired" strictly after. -/
theorem verify_roundtrip (st : Store) (dom : Option String) (now : Int) (d : Discount)
    (hmem : d ∈ st.discounts)
    (hmatch : discountMatches st (toUpperCase d.code) dom d = true)
    (huniq : ∀ x ∈ st.discounts, discountMatches st (toUpperCase d.code) dom x = true → x = d)
    (hstatus : d.status = .CREATED) :
    (now ≤ d.expiresAt → verify st d.code dom now = ⟨true, none⟩) ∧
    (d.expiresAt < now → verify st d.code dom now = ⟨false, some "Code expired"⟩) := by
  have hfind : st.discounts.find? (discountMatches st (toUpperCase d.code) dom) = some d :=
    findOfUnique _ st.discounts d hmem hmatch huniq
  unfold verify
  rw [hfind]
  dsimp only
  have h1 : ¬(d.status = DiscountStatus.USED) := by
    rw [hstatus]; intro hc; cases hc
  constructor
  · intro hle
    have h2 : ¬(d.status = DiscountStatus.EXPIRED ∨ d.expiresAt < now) := by
      rintro (hc | hc)
      · rw [hstatus] at hc; cases hc
      · exact absurd hc (not_lt.mpr hle)
    rw [if_neg h1, if_neg h2]
  · intro hlt
    rw [if_neg h1, if_pos (Or.inr hlt)]

/-- C8 witness: the concrete discount `SPIN10-ABC` expiring at time 1000 is
valid at 1000 and expired at 1001. -/
theorem verify_roundtrip_witness :
    verify stVerify "SPIN10-ABC" none 1000 = ⟨true, none⟩ ∧
    verify stVerify "SPIN10-ABC" none 1001 = ⟨false, some "Code expired"⟩ :=
  ⟨(verify_roundtrip stVerify none 1000 exDiscount (by simp [stVerify])
      (by simp [discountMatches, stVerify, exDiscount, toUpperCase, charUp])
      (by simp [stVerify]) rfl).1 (by norm_num [exDiscount]),
   (verify_roundtrip stVerify none 1001 exDiscount (by simp [stVerify])
      (by simp [discountMatches, stVerify, exDiscount, toUpperCase, charUp])
      (by simp [stVerify]) rfl).2 (by norm_num [exDiscount])⟩

/-- C6 (confirmed): once a play call has resolved its session, game and
rule (and passed the email guard), eligibility is decided by counting this
visitor's plays of this game with `playedAt ≥ now − cooldownHours`: if the
count has reached `maxPlaysPerVisitor` the call fails with the
429-equivalent `playLimitReached` error and no outcome — the plays,
discounts and analytics tables are untouched; if the count is below the
limit the call proceeds past the rate limit (to outcome resolution). -/
theorem play_cooldown_gate (st : Store) (tok : String) (gid : Nat) (email : Option String)
    (now : Int) (u : ℚ) (sfx : String) (sid : Option String)
    (s : Session) (v : Visitor) (sh : Shop) (g : Game) (rule : DiscountRule)
    (htok : ¬ tok = "")
    (hs : lookupSession st tok = some s) (hsa : s.isActive = true)
    (hv : lookupVisitor st s.visitorId = some v)
    (hsh : lookupShop st v.shopId = some sh)
    (hg : lookupActiveGame st gid sh.id = some g)
    (hr : findDiscountRule st.rules sh.id g.id = some rule)
    (hguard : (rule.requireEmail && email.isNone && v.email.isNone) = false) :
    (rule.maxPlaysPerVisitor ≤
        countRecentPlays st.plays v.id g.id (hoursAgo now rule.cooldownHours) →
      (play st tok gid email now u sfx sid).1 = .error .playLimitReached ∧
      (play st tok gid email now u sfx sid).2.plays = st.plays ∧
      (play st tok gid email now u sfx sid).2.discounts = st.discounts ∧
      (play st tok gid email now u sfx sid).2.analytics = st.analytics) ∧
    (countRecentPlays st.plays v.id g.id (hoursAgo now rule.cooldownHours) <
        rule.maxPlaysPerVisitor →
      (play st tok gid email now u sfx sid).1 = .error .noSegmentsConfigured ∨
      ∃ out, (play st tok gid email now u sfx sid).1 = .ok out) := by
  have hres := playPhase1_resolved st tok gid email now s v sh g rule htok hs hsa hv hsh hg
    hr hguard
  constructor
  · intro hge
    rw [if_pos hge] at hres
    unfold play
    rw [hres]
    exact ⟨rfl, emailBackfill_plays _ _ _, emailBackfill_discounts _ _ _,
      emailBackfill_analytics _ _ _⟩
  · intro hlt
    rw [if_neg (not_le.mpr hlt)] at hres
    unfold play
    rw [hres]
    dsimp only
    cases hw : weightedRandom u (sortSegs g.segments) with
    | none =>
      left
      unfold playPhase2
      rw [hw]
    | some seg =>
      right
      unfold playPhase2
      rw [hw]
      dsimp only
      exact ⟨_, rfl⟩

/-- C6 witness: one prior play inside a 24-hour window with a limit of 1
makes the next call fail with `playLimitReached`. -/
theorem play_cooldown_gate_witness :
    baseRule.maxPlaysPerVisitor ≤
      countRecentPlays stLimited.plays baseVisitor.id (mkGame [segLose1]).id
        (hoursAgo 1000000 baseRule.cooldownHours) ∧
    (play stLimited "T" 1 none 1000000 0 "A" none).1 = .error .playLimitReached := by
  have hc : baseRule.maxPlaysPerVisitor ≤
      countRecentPlays stLimited.plays baseVisitor.id (mkGame [segLose1]).id
        (hoursAgo 1000000 baseRule.cooldownHours) := by decide
  refine ⟨hc, ?_⟩
  exact ((play_cooldown_gate stLimited "T" 1 none 1000000 0 "A" none baseSession baseVisitor
    baseShop (mkGame [segLose1]) baseRule (by simp) rfl rfl rfl rfl rfl rfl rfl).1 hc).1

/-- C10 (confirmed): when a play call supplies an email and the visitor has
none, the email is persisted before the cooldown check, so a call rejected
with the 429-equivalent rate-limit error still leaves the visitor's email
set to the supplied value — the store is mutated on this error path. -/
theorem play_email_persisted_on_429 (st : Store) (tok : String) (gid : Nat) (e : String)
    (now : Int) (u : ℚ) (sfx : String) (sid : Option String)
    (s : Session) (v : Visitor) (sh : Shop) (g : Game) (rule : DiscountRule)
    (htok : ¬ tok = "")
    (hs : lookupSession st tok = some s) (hsa : s.isActive = true)
    (hv : lookupVisitor st s.visitorId = some v)
    (hsh : lookupShop st v.shopId = some sh)
    (hg : lookupActiveGame st gid sh.id = some g)
    (hr : findDiscountRule st.rules sh.id g.id = some rule)
    (hvem : v.email = none)
    (hcount : rule.maxPlaysPerVisitor ≤
      countRecentPlays st.plays v.id g.id (hoursAgo now rule.cooldownHours)) :
    (play st tok gid (some e) now u sfx sid).1 = .error .playLimitReached ∧
    lookupVisitor (play st tok gid (some e) now u sfx sid).2 v.id =
      some { v with email := some e } := by
  have hguard : (rule.requireEmail && (some e).isNone && v.email.isNone) = false := by
    simp
  have hres := playPhase1_resolved st tok gid (some e) now s v sh g rule htok hs hsa hv hsh
    hg hr hguard
  rw [if_pos hcount] at hres
  unfold play
  rw [hres]
  dsimp only
  have hvid : v.id = s.visitorId := by
    have := List.find?_some hv
    exact of_decide_eq_true this
  have hv2 : List.find? (fun x => decide (x.id = v.id)) st.visitors = some v := by
    rw [hvid]
    exact hv
  refine ⟨rfl, ?_⟩
  show lookupVisitor (emailBackfill st v (some e)) v.id = some { v with email := some e }
  unfold emailBackfill
  have hcond : ((some e).isSome && v.email.isNone) = true := by
    rw [hvem]; rfl
  rw [if_pos hcond]
  show List.find? (fun x => decide (x.id = v.id))
      (st.visitors.map (fun w => if w.id = v.id then { w with email := some e } else w)) =
    some { v with email := some e }
  exact find_update_email st.visitors v.id (some e) v hv2

/-- C10 witness: a rate-limited call with a fresh email still persists it. -/
theorem play_email_persisted_witness :
    (play stLimitedNoEmail "T" 1 (some "new@x.example") 1000000 0 "A" none).1 =
      .error .playLimitReached ∧
    lookupVisitor (play stLimitedNoEmail "T" 1 (some "new@x.example") 1000000 0 "A" none).2
        visitorNoEmail.id = some { visitorNoEmail with email := some "new@x.example" } :=
  play_email_persisted_on_429 stLimitedNoEmail "T" 1 "new@x.example" 1000000 0 "A" none
    baseSession visitorNoEmail baseShop (mkGame [segLose1]) baseRule (by simp) rfl rfl rfl rfl
    rfl rfl rfl (by decide)

/-- C9 (confirmed): a successful play creates exactly one Play row; that row
is a WIN referencing exactly one newly created Discount if and only if the
selected segment's prize kind is not NO_PRIZE, and a LOSE referencing no
Discount (with the discounts table untouched) when the segment is NO_PRIZE. -/
theorem play_win_iff_discount (st : Store) (tok : String) (gid : Nat) (email : Option String)
    (now : Int) (u : ℚ) (sfx : String) (sid : Option String) (out : PlayOk) (stFin : Store)
    (h : play st tok gid email now u sfx sid = (.ok out, stFin)) :
    ∃ p : Play, stFin.plays = p :: st.plays ∧ p.result = out.result ∧
      (out.result = .WIN ↔ out.segment.type ≠ .NO_PRIZE) ∧
      (out.segment.type ≠ .NO_PRIZE →
        ∃ d : Discount, stFin.discounts = d :: st.discounts ∧ p.discountId = some d.id ∧
          out.discount = some d) ∧
      (out.segment.type = .NO_PRIZE →
        p.discountId = none ∧ stFin.discounts = st.discounts ∧ out.discount = none) := by
  unfold play at h
  rcases hp : playPhase1 st tok gid email now with ⟨r, st1⟩
  rw [hp] at h
  cases r with
  | error e => simp at h
  | ok ctx =>
    dsimp only at h
    have h1plays : st1.plays = st.plays := by
      have h0 := playPhase1_snd_plays st tok gid email now
      rw [hp] at h0
      exact h0
    have h1disc : st1.discounts = st.discounts := by
      have h0 := playPhase1_snd_discounts st tok gid email now
      rw [hp] at h0
      exact h0
    obtain ⟨p, hplays, hres, hiff, hwin, hlose⟩ :=
      playPhase2_ok_shape st1 ctx now u sfx sid out stFin h
    refine ⟨p, ?_, hres, hiff, ?_, ?_⟩
    · rw [hplays, h1plays]
    · intro hc
      obtain ⟨d, hd1, hd2, hd3⟩ := hwin hc
      exact ⟨d, by rw [hd1, h1disc], hd2, hd3⟩
    · intro hc
      obtain ⟨hd1, hd2, hd3⟩ := hlose hc
      exact ⟨hd1, by rw [hd2, h1disc], hd3⟩

/-- C9 witness: the concrete winning play on `stWin` creates one WIN play
row referencing exactly the one created discount. -/
theorem play_win_iff_discount_witness :
    ∃ p : Play, stWinFinal.plays = p :: stWin.plays ∧ p.result = exWinOut.result ∧
      (exWinOut.result = .WIN ↔ exWinOut.segment.type ≠ .NO_PRIZE) ∧
      (exWinOut.segment.type ≠ .NO_PRIZE →
        ∃ d : Discount, stWinFinal.discounts = d :: stWin.discounts ∧
          p.discountId = some d.id ∧ exWinOut.discount = some d) ∧
      (exWinOut.segment.type = .NO_PRIZE →
        p.discountId = none ∧ stWinFinal.discounts = stWin.discounts ∧
          exWinOut.discount = none) :=
  play_win_iff_discount stWin "T" 1 none 1000000 0 "AB" none exWinOut stWinFinal (by
    simp [play, playPhase1, playPhase2, stWin, stWinFinal, mkStore, mkGame, baseShop,
      baseVisitor, baseSession, baseRule, segWin10, exWinOut, exWinPlay, exWinDiscount,
      lookupSession, lookupVisitor, lookupShop, lookupActiveGame, findDiscountRule,
      ruleApplicable, firstByCreatedAsc, pickOlder, countRecentPlays, emailBackfill,
      updateVisitorEmail, sortSegs, insertSeg, weightedRandom, sumProb, wrWalk, hoursAgo,
      freshPlayId, freshDiscountId, segCodePart, generateDiscountCode, toUpperCase, charUp,
      incVisitorStats, touchSession, upsertAnalytics, startOfDay, addDays]
    rfl)

/-- C7 (corrected), counterexample: a matching targeting rule pointing at a
game whose `isActive` flag is set but whose date window has already ended
(`endDate = 0 < now = 100`) still overrides the default game — the override
lookup checks only `isActive`, not the date window, so the selected game is
not "active" in the spec's sense while the default game was. -/
theorem init_targeting_counterexample :
    initActiveGame stTargetExpired 0 none none none baseVisitor true 100 0 12 =
      some gameExpired ∧
    gameActiveAt gameExpired 100 = false ∧
    defaultActiveGame stTargetExpired 0 100 = some gameDefault := by
  exact ⟨rfl, rfl, rfl⟩

/-- C7 (corrected), amended claim: active targeting rules are evaluated in
descending priority order as a conjunction of their non-empty fields; when
none matches, the default active game stands; when one matches and its
target game resolves by `{ id, shopId, isActive: true }` (the date window is
NOT re-checked) and differs from the default, the target replaces the
default, and every active rule of strictly higher priority fails to match. -/
theorem init_targeting_amended :
    (∀ (st : Store) (shopId : Nat) (pg rf utm : Option String) (visitor : Visitor)
        (isNew : Bool) (now : Int) (day : Nat) (hour : Int),
      (∀ r ∈ activeTargeting st shopId, ruleMatches r pg rf utm visitor isNew day hour = false) →
      initActiveGame st shopId pg rf utm visitor isNew now day hour =
        defaultActiveGame st shopId now) ∧
    (∀ (st : Store) (shopId : Nat) (pg rf utm : Option String) (visitor : Visitor)
        (isNew : Bool) (now : Int) (day : Nat) (hour : Int) (r : TargetingRule) (gid : Nat)
        (tg : Game),
      findMatch st shopId pg rf utm visitor isNew day hour = some r →
      r.gameId = some gid →
      overrideApplies (defaultActiveGame st shopId now) gid = true →
      lookupActiveGame st gid shopId = some tg →
      initActiveGame st shopId pg rf utm visitor isNew now day hour = some tg ∧
        tg.isActive = true ∧
        ∀ r2 ∈ activeTargeting st shopId, r.priority < r2.priority →
          ruleMatches r2 pg rf utm visitor isNew day hour = false) := by
  constructor
  · intro st shopId pg rf utm visitor isNew now day hour hnone
    have hfind : findMatch st shopId pg rf utm visitor isNew day hour = none := by
      unfold findMatch
      rw [List.find?_eq_none]
      intro x hx
      have hxa : x ∈ activeTargeting st shopId := (sortDesc_mem _ x).mp hx
      simp [hnone x hxa]
    unfold initActiveGame
    rw [hfind]
    rfl
  · intro st shopId pg rf utm visitor isNew now day hour r gid tg hfind hgid hov hlook
    refine ⟨?_, ?_, ?_⟩
    · unfold initActiveGame
      rw [hfind]
      show (match r.gameId with
        | none => defaultActiveGame st shopId now
        | some gid =>
          if overrideApplies (defaultActiveGame st shopId now) gid = true then
            match lookupActiveGame st gid shopId with
            | some tg => some tg
            | none => defaultActiveGame st shopId now
          else defaultActiveGame st shopId now) = some tg
      rw [hgid]
      dsimp only
      rw [if_pos hov, hlook]
    · have hpred := List.find?_some hlook
      simp only [Bool.and_eq_true, decide_eq_true_eq] at hpred
      exact hpred.2
    · intro r2 hr2 hlt
      have hsorted := sortDesc_pairwise (activeTargeting st shopId)
      have hr2s : r2 ∈ sortByPriorityDesc (activeTargeting st shopId) :=
        (sortDesc_mem _ r2).mpr hr2
      have hf : (sortByPriorityDesc (activeTargeting st shopId)).find?
          (fun x => ruleMatches x pg rf utm visitor isNew day hour) = some r := hfind
      exact find_desc_max _ _ r hsorted hf r2 hr2s hlt

/-- C7 witness: an all-matching rule of priority 10 targeting the enabled
game 3 overrides the default game 1; no active rule of higher priority
matches. -/
theorem init_targeting_witness :
    initActiveGame stTargetActive 0 none none none baseVisitor true 100 0 12 =
      some gameTarget ∧
    gameTarget.isActive = true ∧
    ∀ r2 ∈ activeTargeting stTargetActive 0, ruleAllTo3.priority < r2.priority →
      ruleMatches r2 none none none baseVisitor true 0 12 = false :=
  init_targeting_amended.2 stTargetActive 0 none none none baseVisitor true 100 0 12
    ruleAllTo3 3 gameTarget rfl rfl rfl rfl

/-- C1 (code_bug): two concurrent `play` calls for the same visitor and
game, both suspended after their cooldown counts (the read-then-act race the
code does not close with any transaction or unique constraint), BOTH succeed
under a rule with `maxPlaysPerVisitor = 1`: afterwards the visitor has 2
plays of the game inside the cooldown window, violating the invariant. -/
theorem concurrent_play_exceeds_limit :
    (playPair stLose "T" 1 none 1000000 0 0 "A" "B").1.1 =
      .ok ⟨0, .LOSE, segLose1, none⟩ ∧
    (playPair stLose "T" 1 none 1000000 0 0 "A" "B").1.2 =
      .ok ⟨1, .LOSE, segLose1, none⟩ ∧
    countRecentPlays (playPair stLose "T" 1 none 1000000 0 0 "A" "B").2.plays
      baseVisitor.id (mkGame [segLose1]).id (hoursAgo 1000000 baseRule.cooldownHours) = 2 ∧
    baseRule.maxPlaysPerVisitor = 1 := by
  refine ⟨?_, ?_, ?_, rfl⟩ <;>
    simp [playPair, playPhase1, playPhase2, stLose, mkStore, mkGame, baseShop, baseVisitor,
      baseSession, baseRule, segLose1, lookupSession, lookupVisitor, lookupShop,
      lookupActiveGame, findDiscountRule, ruleApplicable, firstByCreatedAsc, pickOlder,
      countRecentPlays, emailBackfill, updateVisitorEmail, sortSegs, insertSeg,
      weightedRandom, sumProb, wrWalk, hoursAgo, freshPlayId, freshDiscountId,
      incVisitorStats, touchSession, upsertAnalytics, startOfDay]

/-- C2 (code_bug): on a winning play whose `prisma.play.create` await fails
after the discount row was already created (there is no surrounding
transaction), the handler returns a 500 while the Discount row stays
persisted with no Play referencing it and the visitor's lifetime counters
not incremented — a partial commit. -/
theorem fault_after_discount_leaves_orphan :
    (playWithPlayCreateFailure stWin "T" 1 none 1000000 0 "AB" none).1 =
      .error .internalError ∧
    (playWithPlayCreateFailure stWin "T" 1 none 1000000 0 "AB" none).2.discounts =
      [exWinDiscount] ∧
    (playWithPlayCreateFailure stWin "T" 1 none 1000000 0 "AB" none).2.plays = [] ∧
    lookupVisitor (playWithPlayCreateFailure stWin "T" 1 none 1000000 0 "AB" none).2 0 =
      some baseVisitor := by
  refine ⟨?_, ?_, ?_, ?_⟩ <;>
    (simp [playWithPlayCreateFailure, playPhase1, playPhase2, stWin, mkStore, mkGame,
      baseShop, baseVisitor, baseSession, baseRule, segWin10, exWinDiscount, lookupSession,
      lookupVisitor, lookupShop, lookupActiveGame, findDiscountRule, ruleApplicable,
      firstByCreatedAsc, pickOlder, countRecentPlays, emailBackfill, updateVisitorEmail,
      sortSegs, insertSeg, weightedRandom, sumProb, wrWalk, hoursAgo, freshPlayId,
      freshDiscountId, segCodePart, generateDiscountCode, toUpperCase, charUp, addDays] <;>
     try rfl)

end Gamify
